import Mathlib

/-!
Verification of the TrendScout pipeline against its specification.

The Python sources are shallowly embedded: dynamically-typed dict records
become structures with explicit optional fields, timestamps become rationals
(seconds since an arbitrary epoch, with `datetime.now()` passed explicitly as
a `now` parameter), and the ISO-8601 string parser `datetime.fromisoformat`
is abstracted as a `String → Option ℚ` parameter since no verified property
depends on its concrete behaviour.
-/

namespace TrendScout

/-! ## JSON values (shape of `json.loads` results used by the AI analyzer) -/

inductive JsonVal where
  | null
  | bool (b : Bool)
  | num (q : ℚ)
  | str (s : String)
deriving DecidableEq

abbrev JsonObj := List (String × JsonVal)

/-! ## Normalized post record (§3 of the spec).

`posted_at` mirrors the dynamic typing of the Python field: it may be a
native datetime (`dt`), a string, absent (`None`), or some other value. -/

inductive PostedAt where
  | absent
  | dt (t : ℚ)
  | str (s : String)
  | other
deriving DecidableEq

structure Item where
  platform : String
  post_id : String
  content : String
  url : String
  views : ℕ
  likes : ℕ
  comments : ℕ
  shares : ℕ
  posted_at : PostedAt
  interest_score : Option ℤ
  ai_analysis : Option JsonObj
  ai_error : Option String
deriving DecidableEq

/-! ## Python string primitives

`str.lower()` and `str.replace(old, new)` modelled on character lists
(`str.replace` is modelled for non-empty `old`, the only way the repository
calls it). -/

def pyLower (s : String) : String :=
  ⟨s.data.map Char.toLower⟩

def replaceCharsGo (pattern replacement : List Char) : ℕ → List Char → List Char
  | 0, l => l
  | _ + 1, [] => []
  | fuel + 1, c :: t =>
    if pattern ≠ [] && pattern.isPrefixOf (c :: t) then
      replacement ++ replaceCharsGo pattern replacement fuel ((c :: t).drop pattern.length)
    else c :: replaceCharsGo pattern replacement fuel t

/-- `replaceCharsGo` with fuel the input length: each step consumes at least
one character, so the fuel never runs out. -/
def pyReplace (s pattern replacement : String) : String :=
  ⟨replaceCharsGo pattern.data replacement.data s.data.length s.data⟩

/-! ## Collector framework (src/data_collectors/base_collector.py)

`BaseCollector.__init__` derives the platform tag from the class name:
`self.platform_name = self.__class__.__name__.replace("Collector", "").lower()`.
`GoogleTrendsCollector` does not override it, and `normalize_data` stamps
every record it produces with that tag. -/

def derivePlatformName (className : String) : String :=
  pyLower (pyReplace className "Collector" "")

def googleTrendsPlatformTag : String := derivePlatformName "GoogleTrendsCollector"

/-! ## Vertical keyword registry (src/config/verticals.py) -/

def coffeeKeywords : List String :=
  ["coffee", "latte", "espresso", "cappuccino", "cold brew", "iced coffee",
   "coffee shop", "barista", "coffee drink", "specialty coffee"]

def restaurantKeywords : List String :=
  ["restaurant", "food", "recipe", "cooking", "chef", "menu", "dining",
   "cuisine", "dish", "meal"]

def barbershopKeywords : List String :=
  ["barbershop", "haircut", "barber", "hairstyle", "men's hair", "fade",
   "beard", "grooming", "haircut style"]

def getVerticalKeywords (vertical : String) : List String :=
  if pyLower vertical = "coffee" then coffeeKeywords
  else if pyLower vertical = "restaurant" then restaurantKeywords
  else if pyLower vertical = "barbershop" then barbershopKeywords
  else coffeeKeywords

def charsContain (needle : List Char) : List Char → Bool
  | [] => needle.isEmpty
  | c :: t => needle.isPrefixOf (c :: t) || charsContain needle t

/-- Python's substring test `needle in hay`. -/
def strContains (hay needle : String) : Bool :=
  charsContain needle.data hay.data

/-! ## Data Filter (src/analyzers/data_filter.py) -/

/-- Deduplication key: `(platform, post_id)`, falling back to
`(platform, content[:50])` when `post_id` is empty
(`DataFilter._remove_duplicates`, lines 81-91). -/
def dedupKey (r : Item) : String × String :=
  if r.post_id = "" then (r.platform, ⟨r.content.data.take 50⟩) else (r.platform, r.post_id)

def removeDuplicatesAux (seen : List (String × String)) : List Item → List Item
  | [] => []
  | r :: rest =>
      if dedupKey r ∈ seen then removeDuplicatesAux seen rest
      else r :: removeDuplicatesAux (dedupKey r :: seen) rest

/-- `DataFilter._remove_duplicates`: first occurrence of each key wins. -/
def removeDuplicates (data : List Item) : List Item :=
  removeDuplicatesAux [] data

/-- Per-record keep decision of `DataFilter._filter_by_date` (lines 206-239):
records tagged `googletrends` always pass, absent dates pass, unparseable
string dates pass, non-datetime non-string values pass, and a parsed date
passes iff it is at or after `now - hours` or strictly in the future. -/
def keepByDate (parseIso : String → Option ℚ) (hours : ℤ) (now : ℚ) (r : Item) : Bool :=
  let cutoff : ℚ := now - (hours : ℚ) * 3600
  if r.platform = "googletrends" then true
  else
    match r.posted_at with
    | .absent => true
    | .dt t =>
        if cutoff ≤ t then true
        else if now < t then true
        else false
    | .str s =>
        match parseIso s with
        | none => true
        | some t =>
            if cutoff ≤ t then true
            else if now < t then true
            else false
    | .other => true

/-- `DataFilter._filter_by_date`: a non-positive lookback returns the input
unchanged (line 199-200); otherwise records are kept per `keepByDate`. -/
def filterByDate (parseIso : String → Option ℚ) (data : List Item) (hours : ℤ)
    (now : ℚ) : List Item :=
  if hours ≤ 0 then data else data.filter (keepByDate parseIso hours now)

/-- Per-record keep decision of `DataFilter._filter_by_vertical`
(lines 170-178): lower-cased content must contain one of the lower-cased
keywords, except that platform `google_trends` is kept unconditionally. -/
def keepByVertical (keywordsLower : List String) (r : Item) : Bool :=
  keywordsLower.any (fun kw => strContains (pyLower r.content) kw)
    || r.platform == "google_trends"

def filterByVertical (data : List Item) (vertical : String) : List Item :=
  data.filter (keepByVertical ((getVerticalKeywords vertical).map pyLower))

/-! ## Trend Scorer (src/analyzers/trend_scorer.py)

Arithmetic on post metrics follows the source exactly; the floating-point
operations are idealized as exact real arithmetic, `math.log2`/`math.log10`
become `Real.logb`, and Python's `round(x, 2)` becomes `round2`. -/

structure TrendAgg where
  posts : List Item
deriving DecidableEq

structure TrendMetrics where
  total_views : ℕ
  total_likes : ℕ
  total_comments : ℕ
  total_shares : ℕ
  current_views : ℕ
  views_6h_ago : ℕ
  platforms : List String
  oldest_post : ℚ
  newest_post : ℚ
  post_count : ℕ
  posts : List Item
deriving DecidableEq

/-- Timestamps extracted from a trend's posts: native datetimes are taken
as-is, strings go through the ISO parser (failures skipped), everything else
is skipped (`TrendScorer._prepare_trend_data`, lines 119-128). -/
def postTimes (parseIso : String → Option ℚ) (posts : List Item) : List ℚ :=
  posts.filterMap fun p =>
    match p.posted_at with
    | .dt t => some t
    | .str s => parseIso s
    | _ => none

def oldestOf (now : ℚ) : List ℚ → ℚ
  | [] => now
  | t :: ts => ts.foldl min t

def newestOf (now : ℚ) : List ℚ → ℚ
  | [] => now
  | t :: ts => ts.foldl max t

/-- `TrendScorer._prepare_trend_data`: `views_6h_ago = int(total_views * 0.8)`
when views are positive (floor of 4/5 of the views), timestamps default to
`now`, platforms are the distinct platform tags. -/
def prepareTrendData (parseIso : String → Option ℚ) (now : ℚ)
    (trend : TrendAgg) : TrendMetrics :=
  if trend.posts = [] then ⟨0, 0, 0, 0, 0, 0, [], now, now, 0, []⟩
  else
    let posts := trend.posts
    let total_views := (posts.map Item.views).sum
    let times := postTimes parseIso posts
    ⟨total_views,
     (posts.map Item.likes).sum,
     (posts.map Item.comments).sum,
     (posts.map Item.shares).sum,
     total_views,
     if 0 < total_views then 4 * total_views / 5 else 0,
     (posts.map Item.platform).dedup,
     oldestOf now times,
     newestOf now times,
     posts.length,
     posts⟩

noncomputable def calculateVelocity (m : TrendMetrics) : ℝ :=
  let velocity : ℝ :=
    if m.views_6h_ago = 0 then (m.current_views : ℝ) / 1000
    else ((m.current_views : ℝ) - (m.views_6h_ago : ℝ)) / 6
  if 0 < velocity then min (velocity / 10) 100 else 0

noncomputable def calculateMomentum (m : TrendMetrics) : ℝ :=
  if m.post_count = 0 then 0
  else
    let time_span : ℝ := ((m.newest_post - m.oldest_post : ℚ) : ℝ) / 86400
    let time_span := if time_span = 0 then 1 else time_span
    min ((m.post_count : ℝ) / time_span * 10) 100

noncomputable def calculateEngagement (m : TrendMetrics) : ℝ :=
  if m.total_views = 0 then 0
  else
    let saves : ℝ := (m.total_likes : ℝ) * 0.1
    min (((m.total_comments : ℝ) * 3 + (m.total_shares : ℝ) * 5 + saves * 7)
          / (m.total_views : ℝ) * 100) 100

noncomputable def calculateGeographic (m : TrendMetrics) : ℝ :=
  if m.platforms.length = 0 then 0
  else min (Real.logb 2 ((m.platforms.length : ℝ) + 1) / Real.logb 2 10 * 100) 100

noncomputable def calculatePlatformDiversity (m : TrendMetrics) : ℝ :=
  min ((m.platforms.length : ℝ) / 10 * 100) 100

noncomputable def calculateTimeDecay (now : ℚ) (m : TrendMetrics) : ℝ :=
  let age_hours : ℝ := ((now - m.newest_post : ℚ) : ℝ) / 3600
  min (1 + age_hours / 24 * 0.1) 2

noncomputable def calculateCompetition (m : TrendMetrics) : ℝ :=
  if m.posts = [] then 1
  else min (1 + Real.logb 10 ((m.posts.length : ℝ) + 1)) 3

/-- `TrendScorer._normalize_score` with its three branches. -/
noncomputable def normalizeScore (score minVal maxVal : ℝ) : ℝ :=
  if score ≤ 0 then minVal
  else if maxVal ≤ minVal then min (minVal + score) 100
  else max minVal (min ((score - 0) / (10000 - 0) * (maxVal - minVal) + minVal) maxVal)

/-- Python's `round(x, 2)` (idealized: half-way ties are measure-zero under
the exact-real embedding). -/
noncomputable def round2 (x : ℝ) : ℝ := ((round (100 * x) : ℤ) : ℝ) / 100

structure TrendScores where
  uts_score : ℝ
  velocity_score : ℝ
  momentum_score : ℝ
  engagement_score : ℝ
  geographic_score : ℝ
  platform_diversity_score : ℝ
  time_decay_score : ℝ
  competition_score : ℝ

/-- Body of the `TrendScorer.score_trends` loop for one trend: the seven
components, `UTS = (V*M*E*G*P)/(T*C)` with a zero-denominator guard,
normalization to 0-100, and all eight values rounded to 2 decimals. -/
noncomputable def scoreTrend (parseIso : String → Option ℚ) (now : ℚ)
    (trend : TrendAgg) : TrendScores :=
  let m := prepareTrendData parseIso now trend
  let velocity := calculateVelocity m
  let momentum := calculateMomentum m
  let engagement := calculateEngagement m
  let geographic := calculateGeographic m
  let platform_diversity := calculatePlatformDiversity m
  let time_decay := calculateTimeDecay now m
  let competition := calculateCompetition m
  let numerator := velocity * momentum * engagement * geographic * platform_diversity
  let denominator := time_decay * competition
  let uts_raw := if denominator = 0 then 0 else numerator / denominator
  let uts_score := normalizeScore uts_raw 0 100
  ⟨round2 uts_score, round2 velocity, round2 momentum, round2 engagement,
   round2 geographic, round2 platform_diversity, round2 time_decay, round2 competition⟩

noncomputable def score_trends (parseIso : String → Option ℚ) (now : ℚ)
    (trends : List TrendAgg) : List TrendScores :=
  trends.map (scoreTrend parseIso now)

/-! ## AI Analyzer (src/analyzers/ai_analyzer.py)

The Claude API is abstracted as a stream of per-attempt outcomes: a reply is
either a JSON object (post fence-stripping and `json.loads`), a
non-JSON text (carrying the `JSONDecodeError` detail), or one of the three
exception kinds distinguished by `_analyze_single`'s handlers. -/

inductive ApiOutcome where
  | rateLimitErr
  | apiErr (msg : String)
  | otherErr (msg : String)
  | replyJson (o : JsonObj)
  | replyNotJson (err : String)
deriving DecidableEq

def requiredFields : List String :=
  ["item_name", "category", "sentiment", "viral_potential", "restaurant_applicable"]

def hasField (o : JsonObj) (f : String) : Bool :=
  o.any fun kv => kv.1 == f

/-- The fixed fallback returned when the model's reply fails JSON parsing
(`_analyze_single`, lines 229-236). -/
def fallbackAnalysis (err : String) : JsonObj :=
  [("item_name", .null), ("category", .null), ("sentiment", .str "neutral"),
   ("viral_potential", .num 5), ("restaurant_applicable", .bool false),
   ("reasoning", .str ("JSON parse error: " ++ err))]

inductive AnalyzeErr where
  | rateLimited
  | api (msg : String)
  | otherExc (msg : String)
  | missingFields (o : JsonObj)
  | failedAfterRetries (n : ℕ)
deriving DecidableEq

inductive AnalyzeOutput where
  | returned (o : JsonObj)
  | raised (e : AnalyzeErr)
deriving DecidableEq

/-- The retry loop of `AIAnalyzer._analyze_single` (lines 177-261), indexed
by the number of attempts remaining (`attempt = maxRetries - remaining`).
A non-JSON reply returns the fallback without retrying; a JSON reply missing
a required field raises `ValueError`, which the generic `except Exception`
handler re-raises immediately; rate-limit and API errors retry while
`attempt < max_retries - 1` (i.e. another attempt remains) and re-raise on
the last attempt; other exceptions re-raise immediately; an exhausted loop
raises the generic analysis-failed error. -/
def analyzeSingleLoop (outcomes : ℕ → ApiOutcome) (maxRetries : ℕ) :
    ℕ → AnalyzeOutput
  | 0 => .raised (.failedAfterRetries maxRetries)
  | remaining + 1 =>
    let attempt := maxRetries - (remaining + 1)
    match outcomes attempt with
    | .replyNotJson err => .returned (fallbackAnalysis err)
    | .replyJson o =>
        if requiredFields.all (hasField o) then .returned o
        else .raised (.missingFields o)
    | .rateLimitErr =>
        if 1 ≤ remaining then analyzeSingleLoop outcomes maxRetries remaining
        else .raised .rateLimited
    | .apiErr msg =>
        if 1 ≤ remaining then analyzeSingleLoop outcomes maxRetries remaining
        else .raised (.api msg)
    | .otherErr msg => .raised (.otherExc msg)

def analyzeSingle (outcomes : ℕ → ApiOutcome) (maxRetries : ℕ) : AnalyzeOutput :=
  analyzeSingleLoop outcomes maxRetries maxRetries

def chunkListGo {α : Type} (batchSize : ℕ) : ℕ → List α → List (List α)
  | 0, _ => []
  | _ + 1, [] => []
  | fuel + 1, x :: xs =>
      (x :: xs).take batchSize :: chunkListGo batchSize fuel (xs.drop (batchSize - 1))

/-- The consecutive `data[i:i + batch_size]` chunks of `analyze_batch`
(fuel-indexed recursion; the fuel, the input length, never runs out since
each step consumes at least one element). -/
def chunkList {α : Type} (batchSize : ℕ) (l : List α) : List (List α) :=
  chunkListGo batchSize l.length l

def setAnalysis (r : Item) (a : JsonObj) : Item :=
  ⟨r.platform, r.post_id, r.content, r.url, r.views, r.likes, r.comments,
   r.shares, r.posted_at, r.interest_score, some a, r.ai_error⟩

def setFailure (r : Item) (err : String) : Item :=
  ⟨r.platform, r.post_id, r.content, r.url, r.views, r.likes, r.comments,
   r.shares, r.posted_at, r.interest_score, none, some err⟩

/-- What `analyze_batch` does to each input record in place: on success the
analysis is attached under `ai_analysis`, on failure `ai_analysis` is set to
`None` and the error text attached under `ai_error` (lines 121-130). -/
def annotateItem (outcome : Item → Except String JsonObj) (r : Item) : Item :=
  match outcome r with
  | .ok a => setAnalysis r a
  | .error err => setFailure r err

/-- `AIAnalyzer.analyze_batch` (lines 104-144), with each record's
`_analyze_single` outcome abstracted as `outcome`: the input is split into
`batch_size` chunks; within each chunk, a record whose analysis succeeded is
annotated and appended to `analyzed_data`, while a failed record is only
annotated in place (`item['ai_analysis'] = None`, `item['ai_error'] = ...`)
and never appended; the chunks' appended records are returned concatenated. -/
def analyzeBatch (outcome : Item → Except String JsonObj) (batchSize : ℕ)
    (data : List Item) : List Item :=
  if data = [] then []
  else
    ((chunkList batchSize data).map fun batch =>
      batch.filterMap fun item =>
        match outcome item with
        | .ok a => some (setAnalysis item a)
        | .error _ => none).flatten

/-! ## Usage Tracker (src/admin/usage_tracker.py)

`datetime.now()` is abstracted as a `Moment` carrying the
`strftime('%Y-%m-%d')` date used for daily rollover and the `isoformat()`
timestamp stored in history entries. -/

structure Moment where
  date : String
  iso : String
deriving DecidableEq

/-- History truncation applied after every append:
`if len(history) > 100: history = history[-100:]`. -/
def truncHistory {α : Type} (h : List α) : List α :=
  if 100 < h.length then h.drop (h.length - 100) else h

structure RedditStats where
  total_requests : ℕ
  requests_today : ℕ
  last_reset : String
  history : List String
deriving DecidableEq

def redditDefault (creationDate : String) : RedditStats :=
  ⟨0, 0, creationDate, []⟩

/-- `UsageTracker._reset_daily_if_needed('reddit')`. -/
def resetDailyReddit (st : RedditStats) (today : String) : RedditStats :=
  if st.last_reset ≠ today then ⟨st.total_requests, 0, today, st.history⟩ else st

/-- `UsageTracker.track_reddit_request` (lines 233-250). -/
def trackRedditRequest (st : RedditStats) (now : Moment) : RedditStats :=
  let st := resetDailyReddit st now.date
  ⟨st.total_requests + 1, st.requests_today + 1, st.last_reset,
   truncHistory (st.history ++ [now.iso])⟩

structure ApifyEvent where
  timestamp : String
  actor : String
  cost_usd : ℚ
  items_collected : ℕ
deriving DecidableEq

structure ApifyStats where
  total_runs : ℕ
  total_cost_usd : ℚ
  runs_today : ℕ
  cost_today : ℚ
  last_reset : String
  history : List ApifyEvent
deriving DecidableEq

def apifyDefault (creationDate : String) : ApifyStats :=
  ⟨0, 0, 0, 0, creationDate, []⟩

/-- `UsageTracker._reset_daily_if_needed('apify')`. -/
def resetDailyApify (st : ApifyStats) (today : String) : ApifyStats :=
  if st.last_reset ≠ today then
    ⟨st.total_runs, st.total_cost_usd, 0, 0, today, st.history⟩
  else st

/-- `UsageTracker.track_apify_run` (lines 124-153). -/
def trackApifyRun (st : ApifyStats) (now : Moment) (actorName : String)
    (cost_usd : ℚ) (items_collected : ℕ) : ApifyStats :=
  let st := resetDailyApify st now.date
  ⟨st.total_runs + 1, st.total_cost_usd + cost_usd, st.runs_today + 1,
   st.cost_today + cost_usd, st.last_reset,
   truncHistory (st.history ++ [⟨now.iso, actorName, cost_usd, items_collected⟩])⟩

structure ApifyCall where
  now : Moment
  actor : String
  cost_usd : ℚ
  items_collected : ℕ
deriving DecidableEq

def applyApifyCall (st : ApifyStats) (c : ApifyCall) : ApifyStats :=
  trackApifyRun st c.now c.actor c.cost_usd c.items_collected

def apifyEventOf (c : ApifyCall) : ApifyEvent :=
  ⟨c.now.iso, c.actor, c.cost_usd, c.items_collected⟩

/-! ## Trend Finder (src/analyzers/trend_finder.py)

A trend aggregate's `category` entry mirrors the dict semantics of
`trend.get('category', '')`: the key may be missing (the `''` default), may
hold Python `None` (on which `.lower()` raises `AttributeError`), or a
string. -/

inductive CatField where
  | absent
  | nullCat
  | strCat (s : String)
deriving DecidableEq

structure TrendRec where
  trend_name : String
  category : CatField
  posts : List Item
deriving DecidableEq

inductive PyError where
  | attributeError
deriving DecidableEq

/-- Evaluation of `trend.get('category', '').lower()`: `None` has no
`.lower()` and raises. -/
def lowerCategory : CatField → Option String
  | .nullCat => none
  | .absent => some (pyLower "")
  | .strCat s => some (pyLower s)

/-- `TrendFinder.filter_relevant_trends` (lines 314-342): trends with fewer
than `min_posts` posts are skipped before the category is touched; a `None`
category then raises `AttributeError`; for the coffee vertical, non-drink,
non-unknown categories mentioning pastry or main_dish are skipped. -/
def filterRelevantTrends : List TrendRec → String → ℕ → Except PyError (List TrendRec)
  | [], _, _ => .ok []
  | t :: ts, vertical, minPosts =>
    if t.posts.length < minPosts then filterRelevantTrends ts vertical minPosts
    else
      match lowerCategory t.category with
      | none => .error .attributeError
      | some category =>
        if vertical == "coffee" && !(strContains category "drink")
            && category != "unknown"
            && (strContains category "pastry" || strContains category "main_dish")
        then filterRelevantTrends ts vertical minPosts
        else (filterRelevantTrends ts vertical minPosts).map (fun l => t :: l)

/-! ## Concrete sample inputs used by witnesses and counterexamples -/

def sampleParse : String → Option ℚ := fun _ => none

def mkPost (platform : String) (posted : PostedAt) : Item :=
  ⟨platform, "id1", "iced coffee recipe", "url", 1000, 50, 3, 1, posted, none, none, none⟩

/-- A model reply carrying all five required fields. -/
def goodObj : JsonObj :=
  [("item_name", .str "Lavender Latte"), ("category", .str "drink"),
   ("sentiment", .str "positive"), ("viral_potential", .num 8),
   ("restaurant_applicable", .bool true), ("reasoning", .str "ok")]

/-- A model reply that parses as JSON but omits four required fields. -/
def missingObj : JsonObj := [("item_name", JsonVal.str "Lavender Latte")]

/-- Attempt 0 replies with non-JSON text; later attempts would succeed. -/
def c5FallbackStream : ℕ → ApiOutcome :=
  fun n => if n = 0 then .replyNotJson "Expecting value" else .replyJson goodObj

/-- Attempt 0 replies with a JSON object missing required fields; later
attempts would succeed. -/
def c5ValidationStream : ℕ → ApiOutcome :=
  fun n => if n = 0 then .replyJson missingObj else .replyJson goodObj

/-- Attempt 0 hits the rate limit; later attempts succeed. -/
def c5RateLimitStream : ℕ → ApiOutcome :=
  fun n => if n = 0 then .rateLimitErr else .replyJson goodObj

/-- The single post of spec §8 property 3: views 1000, no likes, comments or
shares, one platform, posted exactly at `now`. -/
def c3Post (now : ℚ) : Item :=
  ⟨"tiktok", "p1", "iced coffee", "url", 1000, 0, 0, 0, .dt now, none, none, none⟩

def c3Trend (now : ℚ) : TrendAgg := ⟨[c3Post now]⟩

/-- A trend whose only post claims to have been posted 10 days in the
future. -/
def futureTrend : TrendAgg :=
  ⟨[⟨"tiktok", "p1", "future post", "url", 1000, 0, 0, 0, .dt 864000,
     none, none, none⟩]⟩

def c8Moments : List Moment :=
  (List.range 150).map fun n => ⟨"2026-01-01", toString n⟩

def c8Calls : List ApifyCall :=
  (List.range 150).map fun n =>
    ⟨⟨"2026-01-01", toString n⟩, "clockworks/tiktok-scraper", 1 / 100, 10⟩

/-! # Theorems -/

/-! ## C9: non-positive lookback disables the date filter -/

/-- C9: if the caller-supplied lookback `hours` is zero or negative,
`DataFilter._filter_by_date` returns its input list unchanged, keeping every
record regardless of its `posted_at` or platform tag. -/
theorem dateFilter_nonpositive_hours_keeps_all (parseIso : String → Option ℚ)
    (data : List Item) (hours : ℤ) (now : ℚ) (h : hours ≤ 0) :
    filterByDate parseIso data hours now = data := by
  simp [filterByDate, h]

/-- C9 witness: the lookback 0 with a record 999999 seconds in the past. -/
theorem dateFilter_nonpositive_hours_keeps_all_witness :
    (0 : ℤ) ≤ 0 ∧
      filterByDate sampleParse [mkPost "tiktok" (.dt (-999999))] 0 0
        = [mkPost "tiktok" (.dt (-999999))] :=
  ⟨le_refl 0,
   dateFilter_nonpositive_hours_keeps_all sampleParse
     [mkPost "tiktok" (.dt (-999999))] 0 0 (le_refl 0)⟩

/-! ## C6: date-filter boundary at hours = 48 -/

/-- C6: with `hours = 48` and current time `T`, a non-`googletrends` record
posted `T - 47h` is kept, one posted `T - 49h` is excluded, one with
`posted_at` absent is kept regardless, and a `googletrends` record is kept
regardless of its date. -/
theorem dateFilter_48h_boundary (parseIso : String → Option ℚ) (T : ℚ) (r : Item) :
    (r.platform ≠ "googletrends" → r.posted_at = .dt (T - 169200) →
        filterByDate parseIso [r] 48 T = [r])
    ∧ (r.platform ≠ "googletrends" → r.posted_at = .dt (T - 176400) →
        filterByDate parseIso [r] 48 T = [])
    ∧ (r.posted_at = .absent → filterByDate parseIso [r] 48 T = [r])
    ∧ (r.platform = "googletrends" → filterByDate parseIso [r] 48 T = [r]) := by
  have h48 : ¬ ((48 : ℤ) ≤ 0) := by norm_num
  refine ⟨fun hp hd => ?_, fun hp hd => ?_, fun hd => ?_, fun hp => ?_⟩
  · have hk : keepByDate parseIso 48 T r = true := by
      simp [keepByDate, hp, hd]
      left
      linarith
    simp [filterByDate, h48, hk]
  · have hk : keepByDate parseIso 48 T r = false := by
      simp [keepByDate, hp, hd]
      linarith
    simp [filterByDate, h48, hk]
  · have hk : keepByDate parseIso 48 T r = true := by
      by_cases hp : r.platform = "googletrends" <;> simp [keepByDate, hp, hd]
    simp [filterByDate, h48, hk]
  · have hk : keepByDate parseIso 48 T r = true := by
      simp [keepByDate, hp]
    simp [filterByDate, h48, hk]

/-- C6 witness at `T = 0`: a record posted 47 hours ago is kept, one posted
49 hours ago is dropped, a dateless record is kept, and an arbitrarily old
`googletrends` record is kept. -/
theorem dateFilter_48h_boundary_witness :
    filterByDate sampleParse [mkPost "tiktok" (.dt (-169200))] 48 0
        = [mkPost "tiktok" (.dt (-169200))]
    ∧ filterByDate sampleParse [mkPost "tiktok" (.dt (-176400))] 48 0 = []
    ∧ filterByDate sampleParse [mkPost "tiktok" .absent] 48 0
        = [mkPost "tiktok" .absent]
    ∧ filterByDate sampleParse [mkPost "googletrends" (.dt (-999999999))] 48 0
        = [mkPost "googletrends" (.dt (-999999999))] := by
  refine ⟨?_, ?_, ?_, ?_⟩
  · exact (dateFilter_48h_boundary sampleParse 0 (mkPost "tiktok" (.dt (-169200)))).1
      (by decide) (by simp [mkPost])
  · exact (dateFilter_48h_boundary sampleParse 0 (mkPost "tiktok" (.dt (-176400)))).2.1
      (by decide) (by simp [mkPost])
  · exact (dateFilter_48h_boundary sampleParse 0 (mkPost "tiktok" .absent)).2.2.1 rfl
  · exact (dateFilter_48h_boundary sampleParse 0
      (mkPost "googletrends" (.dt (-999999999)))).2.2.2 rfl

/-! ## C1: the live collector's platform tag and the two bypasses -/

/-- C1 counterexample: the platform tag derived at construction for the live
Google Trends collector (class name "GoogleTrendsCollector", "Collector"
suffix removed, lower-cased) is "googletrends", not "google_trends" as the
claim asserts. -/
theorem googleTrendsTag_counterexample :
    googleTrendsPlatformTag ≠ "google_trends"
      ∧ googleTrendsPlatformTag = "googletrends" := by
  constructor <;> decide

/-- C1 (amended): the live collector's derived tag is "googletrends"; hence
the date-filter's special-case bypass (which tests "googletrends") matches
every record carrying that tag, for every lookback and time, while the
vertical-filter's unconditional-keep bypass (which tests "google_trends")
never fires for such records — their survival reduces to the keyword test. -/
theorem googleTrends_tag_and_bypasses (parseIso : String → Option ℚ)
    (hours : ℤ) (now : ℚ) (r : Item) (kws : List String)
    (hp : r.platform = googleTrendsPlatformTag) :
    googleTrendsPlatformTag = "googletrends"
    ∧ filterByDate parseIso [r] hours now = [r]
    ∧ (keepByVertical kws r = true
        ↔ (kws.any fun kw => strContains (pyLower r.content) kw) = true) := by
  have htag : googleTrendsPlatformTag = "googletrends" := by decide
  rw [htag] at hp
  refine ⟨htag, ?_, ?_⟩
  · by_cases h0 : hours ≤ 0
    · simp [filterByDate, h0]
    · have hk : keepByDate parseIso hours now r = true := by
        simp [keepByDate, hp]
      simp [filterByDate, h0, hk]
  · have hne : (r.platform == "google_trends") = false := by
      rw [hp]; decide
    simp [keepByVertical, hne]

/-- C1 witness: a concrete record tagged with the derived platform name. -/
theorem googleTrends_tag_and_bypasses_witness :
    googleTrendsPlatformTag = "googletrends"
    ∧ filterByDate sampleParse [mkPost googleTrendsPlatformTag (.dt (-999999999))] 48 0
        = [mkPost googleTrendsPlatformTag (.dt (-999999999))]
    ∧ (keepByVertical (coffeeKeywords.map pyLower)
          (mkPost googleTrendsPlatformTag (.dt (-999999999))) = true
        ↔ ((coffeeKeywords.map pyLower).any fun kw =>
            strContains (pyLower (mkPost googleTrendsPlatformTag
              (.dt (-999999999))).content) kw) = true) :=
  googleTrends_tag_and_bypasses sampleParse 48 0
    (mkPost googleTrendsPlatformTag (.dt (-999999999)))
    (coffeeKeywords.map pyLower) rfl

/-! ## C7: deduplication is idempotent and keeps the first record per key -/

theorem removeDuplicatesAux_idem (l : List Item) :
    ∀ seen, removeDuplicatesAux seen (removeDuplicatesAux seen l)
      = removeDuplicatesAux seen l := by
  induction l with
  | nil => intro seen; simp [removeDuplicatesAux]
  | cons r rest ih =>
      intro seen
      by_cases h : dedupKey r ∈ seen
      · simp [removeDuplicatesAux, h, ih seen]
      · simp [removeDuplicatesAux, h, ih (dedupKey r :: seen)]

theorem removeDuplicatesAux_filter_of_mem (l : List Item) :
    ∀ seen k, k ∈ seen →
      (removeDuplicatesAux seen l).filter (fun r => decide (dedupKey r = k)) = [] := by
  induction l with
  | nil => intro seen k _; simp [removeDuplicatesAux]
  | cons r rest ih =>
      intro seen k hk
      by_cases h : dedupKey r ∈ seen
      · simp only [removeDuplicatesAux, if_pos h]
        exact ih seen k hk
      · have hne : ¬ (dedupKey r = k) := fun he => h (he ▸ hk)
        simp only [removeDuplicatesAux, if_neg h, List.filter_cons,
          decide_eq_true_eq, if_neg hne]
        exact ih (dedupKey r :: seen) k (List.mem_cons_of_mem _ hk)

theorem removeDuplicatesAux_filter_of_not_mem (l : List Item) :
    ∀ seen k, k ∉ seen →
      (removeDuplicatesAux seen l).filter (fun r => decide (dedupKey r = k))
        = (l.filter (fun r => decide (dedupKey r = k))).take 1 := by
  induction l with
  | nil => intro seen k _; simp [removeDuplicatesAux]
  | cons r rest ih =>
      intro seen k hk
      by_cases h : dedupKey r ∈ seen
      · have hne : ¬ (dedupKey r = k) := fun he => hk (he ▸ h)
        simp only [removeDuplicatesAux, if_pos h, List.filter_cons,
          decide_eq_true_eq, if_neg hne]
        exact ih seen k hk
      · by_cases he : dedupKey r = k
        · simp only [removeDuplicatesAux, if_neg h, List.filter_cons,
            decide_eq_true_eq, if_pos he]
          rw [removeDuplicatesAux_filter_of_mem rest (dedupKey r :: seen) k
            (by simp [he])]
          simp
        · simp only [removeDuplicatesAux, if_neg h, List.filter_cons,
            decide_eq_true_eq, if_neg he]
          exact ih (dedupKey r :: seen) k
            (by simp [hk]; exact fun hh => he hh.symm)

/-- C7: for every list of Post Records, deduplication is idempotent, and for
every key the surviving records with that key are exactly the first input
record carrying it (so duplicates collapse to one, the first occurrence). -/
theorem removeDuplicates_idempotent_first_wins (l : List Item) :
    removeDuplicates (removeDuplicates l) = removeDuplicates l
    ∧ ∀ k : String × String,
        (removeDuplicates l).filter (fun r => decide (dedupKey r = k))
          = (l.filter (fun r => decide (dedupKey r = k))).take 1 :=
  ⟨removeDuplicatesAux_idem l [],
   fun k => removeDuplicatesAux_filter_of_not_mem l [] k (by simp)⟩

/-! ## C10: null trend categories and filter_relevant_trends -/

/-- C10 counterexample: a trend whose category is present with the null
value but which has fewer than `min_posts` posts is skipped by the post-count
check before the category is ever read, so the call returns a filtered list
normally instead of raising. -/
theorem filterRelevantTrends_null_counterexample :
    (TrendRec.mk "tiny trend" .nullCat []).category = .nullCat
    ∧ filterRelevantTrends [TrendRec.mk "tiny trend" .nullCat []] "coffee" 2
        = .ok [] :=
  ⟨rfl, rfl⟩

/-- C10 (amended): a null category makes `filter_relevant_trends` raise
`AttributeError` (from `None.lower()`) exactly when the trend survives the
`min_posts` check; when every trend's category is absent or a string the
call is total and returns a filtered list. -/
theorem filterRelevantTrends_null_category (trends : List TrendRec)
    (vertical : String) (minPosts : ℕ) :
    ((∃ t ∈ trends, t.category = .nullCat ∧ minPosts ≤ t.posts.length) →
        filterRelevantTrends trends vertical minPosts = .error .attributeError)
    ∧ ((∀ t ∈ trends, t.category ≠ .nullCat) →
        ∃ l, filterRelevantTrends trends vertical minPosts = .ok l) := by
  induction trends with
  | nil =>
      refine ⟨fun h => ?_, fun _ => ⟨[], rfl⟩⟩
      simp at h
  | cons t ts ih =>
      constructor
      · rintro ⟨u, hu, hcat, hlen⟩
        rcases List.mem_cons.mp hu with rfl | hmem
        · have hnot : ¬ (u.posts.length < minPosts) := Nat.not_lt.mpr hlen
          simp [filterRelevantTrends, hnot, hcat, lowerCategory]
        · have herr := ih.1 ⟨u, hmem, hcat, hlen⟩
          by_cases hlt : t.posts.length < minPosts
          · simp [filterRelevantTrends, hlt, herr]
          · rcases hc : lowerCategory t.category with _ | c
            · simp [filterRelevantTrends, hlt, hc]
            · simp only [filterRelevantTrends, if_neg hlt, hc]
              split
              · exact herr
              · rw [herr]; rfl
      · intro hnone
        obtain ⟨l, hl⟩ := ih.2 (fun u hu => hnone u (List.mem_cons_of_mem _ hu))
        by_cases hlt : t.posts.length < minPosts
        · exact ⟨l, by simp [filterRelevantTrends, hlt, hl]⟩
        · rcases hc : lowerCategory t.category with _ | c
          · exfalso
            have hn := hnone t (List.mem_cons_self t ts)
            cases hcat : t.category with
            | nullCat => exact hn hcat
            | absent => rw [hcat] at hc; simp [lowerCategory] at hc
            | strCat s => rw [hcat] at hc; simp [lowerCategory] at hc
          · simp only [filterRelevantTrends, if_neg hlt, hc]
            split
            · exact ⟨l, hl⟩
            · exact ⟨t :: l, by rw [hl]; rfl⟩

/-- C10 witness: a null-category trend with 2 ≥ min_posts posts makes the
call raise, while a drink-category trend list filters normally. -/
theorem filterRelevantTrends_null_category_witness :
    filterRelevantTrends
        [TrendRec.mk "big trend" .nullCat [mkPost "tiktok" .absent, mkPost "reddit" .absent]]
        "coffee" 2 = .error .attributeError
    ∧ ∃ l, filterRelevantTrends
        [TrendRec.mk "ok trend" (.strCat "drink")
          [mkPost "tiktok" .absent, mkPost "reddit" .absent]]
        "coffee" 2 = .ok l :=
  ⟨(filterRelevantTrends_null_category
      [TrendRec.mk "big trend" .nullCat [mkPost "tiktok" .absent, mkPost "reddit" .absent]]
      "coffee" 2).1
      ⟨TrendRec.mk "big trend" .nullCat [mkPost "tiktok" .absent, mkPost "reddit" .absent],
        by decide, rfl, by decide⟩,
   (filterRelevantTrends_null_category
      [TrendRec.mk "ok trend" (.strCat "drink")
        [mkPost "tiktok" .absent, mkPost "reddit" .absent]]
      "coffee" 2).2 (by decide)⟩

/-! ## C5: JSON-parse failures vs missing-field validation failures -/

/-- C5 counterexample: with three retries available, a first-attempt reply
that parses as JSON but omits required fields is NOT funneled into the
retry loop — the validation failure is raised immediately even though the
next attempt's reply would validate — whereas a first-attempt rate-limit
error at the same position IS retried and yields the good reply. -/
theorem analyzeSingle_validation_not_retried_counterexample :
    analyzeSingle c5ValidationStream 3 = .raised (.missingFields missingObj)
    ∧ analyzeSingle c5RateLimitStream 3 = .returned goodObj :=
  ⟨rfl, rfl⟩

/-- C5 (amended): in `_analyze_single`, a reply failing JSON parsing is
never retried and yields the fixed fallback result, and a reply that parses
but omits a required field raises a validation failure that is re-raised
immediately by the generic exception handler — it is NOT retried, unlike
rate-limit and API errors. -/
theorem analyzeSingle_parse_vs_validation (s : ℕ → ApiOutcome) (mr : ℕ)
    (e : String) (o : JsonObj) (hmr : 0 < mr) :
    (s 0 = .replyNotJson e → analyzeSingle s mr = .returned (fallbackAnalysis e))
    ∧ (s 0 = .replyJson o → requiredFields.all (hasField o) = false →
        analyzeSingle s mr = .raised (.missingFields o)) := by
  obtain ⟨k, rfl⟩ : ∃ k, mr = k + 1 := ⟨mr - 1, by omega⟩
  constructor
  · intro h0
    simp [analyzeSingle, analyzeSingleLoop, h0]
  · intro h0 hmiss
    simp [analyzeSingle, analyzeSingleLoop, h0, hmiss]

/-- C5 witness: concrete streams with `max_retries = 3`. -/
theorem analyzeSingle_parse_vs_validation_witness :
    (0 : ℕ) < 3
    ∧ analyzeSingle c5FallbackStream 3 = .returned (fallbackAnalysis "Expecting value")
    ∧ analyzeSingle c5ValidationStream 3 = .raised (.missingFields missingObj) :=
  ⟨by decide,
   (analyzeSingle_parse_vs_validation c5FallbackStream 3 "Expecting value"
      missingObj (by decide)).1 rfl,
   (analyzeSingle_parse_vs_validation c5ValidationStream 3 "Expecting value"
      missingObj (by decide)).2 rfl (by decide)⟩

/-! ## C2: analyze_batch drops failed records from its returned list -/

/-- C2 (code bug): contrary to the spec, a record whose analysis fails is
only annotated in place (ai_analysis set to None, ai_error set) and is NOT
included in `analyze_batch`'s returned list — the returned list holds only
the successfully analyzed records. -/
theorem analyzeBatch_drops_failed_records :
    analyzeBatch (fun _ => .error "API connection error") 10 [mkPost "tiktok" .absent]
        = []
    ∧ analyzeBatch (fun _ => .ok goodObj) 10 [mkPost "tiktok" .absent]
        = [setAnalysis (mkPost "tiktok" .absent) goodObj]
    ∧ annotateItem (fun _ => .error "API connection error") (mkPost "tiktok" .absent)
        = setFailure (mkPost "tiktok" .absent) "API connection error" :=
  ⟨rfl, rfl, rfl⟩

/-! ## C8: the usage tracker's bounded event history -/

theorem truncHistory_eq_drop {α : Type} (l : List α) :
    truncHistory l = l.drop (l.length - 100) := by
  unfold truncHistory
  split
  · rfl
  · have h : l.length - 100 = 0 := by omega
    rw [h, List.drop_zero]

theorem drop_excess_append {α : Type} (a b : List α) :
    ((a.drop (a.length - 100)) ++ b).drop (((a.drop (a.length - 100)) ++ b).length - 100)
      = (a ++ b).drop ((a ++ b).length - 100) := by
  rcases le_or_lt a.length 100 with h | h
  · have h0 : a.length - 100 = 0 := by omega
    rw [h0, List.drop_zero]
  · simp only [List.length_append, List.length_drop]
    rw [List.drop_append_eq_append_drop, List.drop_append_eq_append_drop,
      List.drop_drop, List.length_drop]
    have e1 : a.length - 100 + (a.length - (a.length - 100) + b.length - 100)
        = a.length + b.length - 100 := by omega
    have e2 : a.length - (a.length - 100) + b.length - 100 - (a.length - (a.length - 100))
        = a.length + b.length - 100 - a.length := by omega
    rw [e1, e2]

/-- Any tracking operation whose history update is append-then-truncate
keeps, after a whole sequence of calls, exactly the most recent 100 entries
of the initial history plus the appended events. -/
theorem foldl_track_history {σ α E : Type}
    (track : σ → α → σ) (hist : σ → List E) (ent : α → E)
    (hstep : ∀ s a, hist (track s a) = truncHistory (hist s ++ [ent a])) :
    ∀ (ms : List α) (s : σ), (hist s).length ≤ 100 →
      hist (ms.foldl track s)
        = (hist s ++ ms.map ent).drop ((hist s ++ ms.map ent).length - 100) := by
  intro ms
  induction ms with
  | nil =>
      intro s hs
      have h0 : (hist s ++ List.map ent []).length - 100 = 0 := by
        simp; omega
      rw [h0, List.drop_zero]
      simp
  | cons m rest ih =>
      intro s hs
      have hlen : (hist (track s m)).length ≤ 100 := by
        rw [hstep s m, truncHistory_eq_drop, List.length_drop]
        omega
      rw [List.foldl_cons, ih (track s m) hlen, hstep s m, truncHistory_eq_drop]
      have key := drop_excess_append (hist s ++ [ent m]) (rest.map ent)
      rw [List.length_append] at key
      simp only [List.length_append, List.length_singleton] at key ⊢
      rw [key]
      simp only [List.append_assoc, List.singleton_append, List.length_map,
        List.map_cons, List.length_cons]
      have e3 : (hist s).length + 1 + rest.length - 100
          = (hist s).length + (rest.length + 1) - 100 := by omega
      rw [e3]

theorem trackRedditRequest_history (st : RedditStats) (m : Moment) :
    (trackRedditRequest st m).history = truncHistory (st.history ++ [m.iso]) := by
  simp only [trackRedditRequest, resetDailyReddit]
  split <;> rfl

theorem applyApifyCall_history (st : ApifyStats) (c : ApifyCall) :
    (applyApifyCall st c).history
      = truncHistory (st.history ++ [apifyEventOf c]) := by
  simp only [applyApifyCall, trackApifyRun, resetDailyApify, apifyEventOf]
  split <;> rfl

/-- C8: every tracking call preserves the at-most-100-entry history bound
(truncating from the front), and starting from an empty history, a sequence
of tracking calls leaves exactly the most recent 100 events in chronological
order — in particular 150 events leave events 51..150; shown for the reddit
and apify trackers. -/
theorem usageTracker_history_bound (ms : List Moment) (st : RedditStats)
    (cs : List ApifyCall) (ast : ApifyStats)
    (h1 : st.history.length ≤ 100) (h2 : ast.history.length ≤ 100) :
    ((ms.foldl trackRedditRequest st).history.length ≤ 100
      ∧ (st.history = [] →
          (ms.foldl trackRedditRequest st).history
            = (ms.map Moment.iso).drop (ms.length - 100)))
    ∧ ((cs.foldl applyApifyCall ast).history.length ≤ 100
      ∧ (ast.history = [] →
          (cs.foldl applyApifyCall ast).history
            = (cs.map apifyEventOf).drop (cs.length - 100))) := by
  have hr := foldl_track_history trackRedditRequest RedditStats.history Moment.iso
    trackRedditRequest_history ms st h1
  have ha := foldl_track_history applyApifyCall ApifyStats.history apifyEventOf
    applyApifyCall_history cs ast h2
  refine ⟨⟨?_, fun he => ?_⟩, ⟨?_, fun he => ?_⟩⟩
  · rw [hr, List.length_drop]; omega
  · rw [hr, he]; simp
  · rw [ha, List.length_drop]; omega
  · rw [ha, he]; simp

/-- C8 witness: 150 reddit events and 150 apify runs from the zeroed default
state leave histories equal to the last 100 appended events. -/
theorem usageTracker_history_bound_witness :
    ((redditDefault "2026-01-01").history.length ≤ 100
      ∧ (apifyDefault "2026-01-01").history.length ≤ 100
      ∧ c8Moments.length = 150 ∧ c8Calls.length = 150)
    ∧ (c8Moments.foldl trackRedditRequest (redditDefault "2026-01-01")).history
        = (c8Moments.map Moment.iso).drop (c8Moments.length - 100)
    ∧ (c8Calls.foldl applyApifyCall (apifyDefault "2026-01-01")).history
        = (c8Calls.map apifyEventOf).drop (c8Calls.length - 100) :=
  ⟨⟨by decide, by decide, by simp [c8Moments], by simp [c8Calls]⟩,
   (usageTracker_history_bound c8Moments (redditDefault "2026-01-01") c8Calls
      (apifyDefault "2026-01-01") (by decide) (by decide)).1.2 rfl,
   (usageTracker_history_bound c8Moments (redditDefault "2026-01-01") c8Calls
      (apifyDefault "2026-01-01") (by decide) (by decide)).2.2 rfl⟩

/-! ## C4: bounds of the UTS score and its components -/

theorem round_mono_of_le {x y : ℝ} (h : x ≤ y) : round x ≤ round y := by
  rw [round_eq, round_eq]
  exact Int.floor_mono (by linarith)

theorem round2_mono {x y : ℝ} (h : x ≤ y) : round2 x ≤ round2 y := by
  unfold round2
  have h1 : round ((100:ℝ) * x) ≤ round ((100:ℝ) * y) :=
    round_mono_of_le (by linarith)
  have h2 : ((round ((100:ℝ) * x) : ℤ) : ℝ) ≤ ((round ((100:ℝ) * y) : ℤ) : ℝ) :=
    Int.cast_le.mpr h1
  linarith

theorem round2_intCast (k : ℤ) : round2 ((k : ℝ)) = (k : ℝ) := by
  unfold round2
  rw [show (100:ℝ) * (k:ℝ) = (((100 * k : ℤ)) : ℝ) by push_cast; ring,
    round_intCast]
  push_cast
  ring

theorem round2_le_intCast {x : ℝ} (k : ℤ) (h : x ≤ (k:ℝ)) : round2 x ≤ (k:ℝ) := by
  have h2 := round2_mono h
  rwa [round2_intCast] at h2

theorem intCast_le_round2 {x : ℝ} (k : ℤ) (h : (k:ℝ) ≤ x) : (k:ℝ) ≤ round2 x := by
  have h2 := round2_mono h
  rwa [round2_intCast] at h2

theorem round2_le_100 {x : ℝ} (h : x ≤ 100) : round2 x ≤ 100 := by
  have h2 := round2_le_intCast 100 (by push_cast; linarith)
  push_cast at h2
  linarith

theorem round2_le_two {x : ℝ} (h : x ≤ 2) : round2 x ≤ 2 := by
  have h2 := round2_le_intCast 2 (by push_cast; linarith)
  push_cast at h2
  linarith

theorem round2_le_three {x : ℝ} (h : x ≤ 3) : round2 x ≤ 3 := by
  have h2 := round2_le_intCast 3 (by push_cast; linarith)
  push_cast at h2
  linarith

theorem round2_nonneg {x : ℝ} (h : 0 ≤ x) : 0 ≤ round2 x := by
  have h2 := intCast_le_round2 0 (by push_cast; linarith)
  push_cast at h2
  linarith

theorem one_le_round2 {x : ℝ} (h : 1 ≤ x) : 1 ≤ round2 x := by
  have h2 := intCast_le_round2 1 (by push_cast; linarith)
  push_cast at h2
  linarith

theorem calculateVelocity_le_100 (m : TrendMetrics) : calculateVelocity m ≤ 100 := by
  unfold calculateVelocity
  dsimp only
  split_ifs <;> first | exact min_le_right _ _ | norm_num

theorem calculateMomentum_le_100 (m : TrendMetrics) : calculateMomentum m ≤ 100 := by
  unfold calculateMomentum
  dsimp only
  split_ifs <;> first | exact min_le_right _ _ | norm_num

theorem calculateEngagement_le_100 (m : TrendMetrics) : calculateEngagement m ≤ 100 := by
  unfold calculateEngagement
  dsimp only
  split_ifs <;> first | exact min_le_right _ _ | norm_num

theorem calculateGeographic_le_100 (m : TrendMetrics) : calculateGeographic m ≤ 100 := by
  unfold calculateGeographic
  split_ifs <;> first | exact min_le_right _ _ | norm_num

theorem calculatePlatformDiversity_le_100 (m : TrendMetrics) :
    calculatePlatformDiversity m ≤ 100 := by
  unfold calculatePlatformDiversity
  exact min_le_right _ _

theorem calculateTimeDecay_le_two (now : ℚ) (m : TrendMetrics) :
    calculateTimeDecay now m ≤ 2 := by
  unfold calculateTimeDecay
  exact min_le_right _ _

theorem calculateCompetition_bounds (m : TrendMetrics) :
    1 ≤ calculateCompetition m ∧ calculateCompetition m ≤ 3 := by
  unfold calculateCompetition
  split_ifs with h
  · norm_num
  · constructor
    · apply le_min
      · have hn : (0:ℝ) ≤ (m.posts.length : ℝ) := Nat.cast_nonneg _
        have hlog : (0:ℝ) ≤ Real.logb 10 ((m.posts.length : ℝ) + 1) :=
          Real.logb_nonneg (by norm_num) (by linarith)
        linarith
      · norm_num
    · exact min_le_right _ _

theorem normalizeScore_bounds (s : ℝ) :
    0 ≤ normalizeScore s 0 100 ∧ normalizeScore s 0 100 ≤ 100 := by
  unfold normalizeScore
  split_ifs with h1 h2
  · norm_num
  · norm_num at h2
  · exact ⟨le_max_left _ _, max_le (by norm_num) (min_le_right _ _)⟩

theorem foldl_max_le (c : ℚ) :
    ∀ (l : List ℚ) (a : ℚ), a ≤ c → (∀ x ∈ l, x ≤ c) → l.foldl max a ≤ c := by
  intro l
  induction l with
  | nil => intro a ha _; simpa using ha
  | cons x xs ih =>
      intro a ha h
      simp only [List.foldl_cons]
      exact ih (max a x) (max_le ha (h x (by simp)))
        (fun y hy => h y (by simp [hy]))

theorem newestOf_le (now : ℚ) (l : List ℚ) (h : ∀ x ∈ l, x ≤ now) :
    newestOf now l ≤ now := by
  cases l with
  | nil => simp [newestOf]
  | cons t ts =>
      simp only [newestOf]
      exact foldl_max_le now ts t (h t (by simp)) (fun y hy => h y (by simp [hy]))

theorem prepare_newest_le (parseIso : String → Option ℚ) (now : ℚ) (t : TrendAgg)
    (h : ∀ x ∈ postTimes parseIso t.posts, x ≤ now) :
    (prepareTrendData parseIso now t).newest_post ≤ now := by
  unfold prepareTrendData
  split_ifs with ht
  · exact le_refl now
  · exact newestOf_le now _ h

theorem calculateTimeDecay_ge_one (now : ℚ) (m : TrendMetrics)
    (h : m.newest_post ≤ now) : 1 ≤ calculateTimeDecay now m := by
  unfold calculateTimeDecay
  dsimp only
  apply le_min _ (by norm_num)
  have hq : (0:ℚ) ≤ now - m.newest_post := by linarith
  have hr : (0:ℝ) ≤ ((now - m.newest_post : ℚ) : ℝ) := by exact_mod_cast hq
  nlinarith

/-- C4 counterexample: a trend whose only post is timestamped 10 days in the
future gets `time_decay_score = 0`, violating the claimed lower bound 1.0
(the formula `1 + age/24 × 0.1` has no lower cap and the age is negative). -/
theorem utsScoreBounds_counterexample :
    (scoreTrend sampleParse 0 futureTrend).time_decay_score < 1 := by
  have hm : (prepareTrendData sampleParse 0 futureTrend).newest_post = 864000 := rfl
  have hd : calculateTimeDecay 0 (prepareTrendData sampleParse 0 futureTrend) = 0 := by
    unfold calculateTimeDecay
    rw [hm]
    dsimp only
    have : (1 : ℝ) + ((0 - 864000 : ℚ) : ℝ) / 3600 / 24 * 0.1 = 0 := by
      push_cast
      norm_num
    rw [this]
    exact min_eq_left (by norm_num)
  have hp : (scoreTrend sampleParse 0 futureTrend).time_decay_score
      = round2 (calculateTimeDecay 0 (prepareTrendData sampleParse 0 futureTrend)) := rfl
  rw [hp, hd]
  have h0 := round2_intCast 0
  push_cast at h0
  rw [h0]
  norm_num

/-- C4 (amended): for every trend and any input magnitudes the stored
`uts_score` lies in [0, 100]; Velocity, Momentum, Engagement, Geographic and
Platform-diversity scores are each at most 100; Competition lies in
[1.0, 3.0]; Time decay is at most 2.0 but — contrary to the claim — is only
bounded below by 1.0 when no post timestamp lies in the future (a future
`posted_at` drives it below 1.0). -/
theorem utsScoreBounds (parseIso : String → Option ℚ) (now : ℚ) (t : TrendAgg) :
    ((scoreTrend parseIso now t).velocity_score ≤ 100
      ∧ (scoreTrend parseIso now t).momentum_score ≤ 100
      ∧ (scoreTrend parseIso now t).engagement_score ≤ 100
      ∧ (scoreTrend parseIso now t).geographic_score ≤ 100
      ∧ (scoreTrend parseIso now t).platform_diversity_score ≤ 100
      ∧ (scoreTrend parseIso now t).time_decay_score ≤ 2
      ∧ 1 ≤ (scoreTrend parseIso now t).competition_score
      ∧ (scoreTrend parseIso now t).competition_score ≤ 3
      ∧ 0 ≤ (scoreTrend parseIso now t).uts_score
      ∧ (scoreTrend parseIso now t).uts_score ≤ 100)
    ∧ ((∀ x ∈ postTimes parseIso t.posts, x ≤ now) →
        1 ≤ (scoreTrend parseIso now t).time_decay_score) := by
  constructor
  · refine ⟨?_, ?_, ?_, ?_, ?_, ?_, ?_, ?_, ?_, ?_⟩
    · exact round2_le_100 (calculateVelocity_le_100 _)
    · exact round2_le_100 (calculateMomentum_le_100 _)
    · exact round2_le_100 (calculateEngagement_le_100 _)
    · exact round2_le_100 (calculateGeographic_le_100 _)
    · exact round2_le_100 (calculatePlatformDiversity_le_100 _)
    · exact round2_le_two (calculateTimeDecay_le_two _ _)
    · exact one_le_round2 (calculateCompetition_bounds _).1
    · exact round2_le_three (calculateCompetition_bounds _).2
    · exact round2_nonneg (normalizeScore_bounds _).1
    · exact round2_le_100 (normalizeScore_bounds _).2
  · intro h
    exact one_le_round2
      (calculateTimeDecay_ge_one now _ (prepare_newest_le parseIso now t h))

/-- C4 witness: a concrete one-post trend with no parseable timestamps, at
which every bound holds and the no-future-post hypothesis is discharged. -/
theorem utsScoreBounds_witness :
    ((scoreTrend sampleParse 0 (TrendAgg.mk [mkPost "tiktok" .absent])).velocity_score ≤ 100
      ∧ (scoreTrend sampleParse 0 (TrendAgg.mk [mkPost "tiktok" .absent])).momentum_score ≤ 100
      ∧ (scoreTrend sampleParse 0 (TrendAgg.mk [mkPost "tiktok" .absent])).engagement_score ≤ 100
      ∧ (scoreTrend sampleParse 0 (TrendAgg.mk [mkPost "tiktok" .absent])).geographic_score ≤ 100
      ∧ (scoreTrend sampleParse 0 (TrendAgg.mk [mkPost "tiktok" .absent])).platform_diversity_score ≤ 100
      ∧ (scoreTrend sampleParse 0 (TrendAgg.mk [mkPost "tiktok" .absent])).time_decay_score ≤ 2
      ∧ 1 ≤ (scoreTrend sampleParse 0 (TrendAgg.mk [mkPost "tiktok" .absent])).competition_score
      ∧ (scoreTrend sampleParse 0 (TrendAgg.mk [mkPost "tiktok" .absent])).competition_score ≤ 3
      ∧ 0 ≤ (scoreTrend sampleParse 0 (TrendAgg.mk [mkPost "tiktok" .absent])).uts_score
      ∧ (scoreTrend sampleParse 0 (TrendAgg.mk [mkPost "tiktok" .absent])).uts_score ≤ 100)
    ∧ 1 ≤ (scoreTrend sampleParse 0 (TrendAgg.mk [mkPost "tiktok" .absent])).time_decay_score :=
  ⟨(utsScoreBounds sampleParse 0 (TrendAgg.mk [mkPost "tiktok" .absent])).1,
   (utsScoreBounds sampleParse 0 (TrendAgg.mk [mkPost "tiktok" .absent])).2
     (by intro x hx; simp [postTimes, mkPost] at hx)⟩

/-! ## C3: exact component values for the one-post reference trend -/

theorem logb_ten_two_bounds :
    (301/1000 : ℝ) < Real.logb 10 2 ∧ Real.logb 10 2 < 3763/12500 := by
  have hlog10 : (0:ℝ) < Real.log 10 := Real.log_pos (by norm_num)
  constructor
  · rw [Real.logb, lt_div_iff₀ hlog10]
    have h : Real.log ((10:ℝ) ^ (301:ℕ)) < Real.log ((2:ℝ) ^ (1000:ℕ)) := by
      apply Real.log_lt_log (by positivity)
      norm_num
    rw [Real.log_pow, Real.log_pow] at h
    push_cast at h
    linarith
  · rw [Real.logb, div_lt_iff₀ hlog10]
    have h : Real.log ((2:ℝ) ^ (12500:ℕ)) < Real.log ((10:ℝ) ^ (3763:ℕ)) := by
      apply Real.log_lt_log (by positivity)
      norm_num
    rw [Real.log_pow, Real.log_pow] at h
    push_cast at h
    linarith

theorem round2_value {x : ℝ} (k : ℤ) (h1 : (k:ℝ) ≤ 100 * x + 1/2)
    (h2 : 100 * x + 1/2 < (k:ℝ) + 1) : round2 x = (k:ℝ)/100 := by
  unfold round2
  rw [round_eq]
  have hf : ⌊(100:ℝ) * x + 1/2⌋ = k := by
    rw [Int.floor_eq_iff]
    exact ⟨h1, by linarith⟩
  rw [hf]

theorem prepare_c3 (parseIso : String → Option ℚ) (now : ℚ) :
    prepareTrendData parseIso now (c3Trend now)
      = ⟨1000, 0, 0, 0, 1000, 800, ["tiktok"], now, now, 1, [c3Post now]⟩ := by
  unfold prepareTrendData
  rw [if_neg (by simp [c3Trend] : ¬ (c3Trend now).posts = [])]
  simp [c3Trend, c3Post, postTimes, oldestOf, newestOf]

theorem velocity_c3 (parseIso : String → Option ℚ) (now : ℚ) :
    calculateVelocity (prepareTrendData parseIso now (c3Trend now)) = 10/3 := by
  rw [prepare_c3]
  unfold calculateVelocity
  norm_num

theorem momentum_c3 (parseIso : String → Option ℚ) (now : ℚ) :
    calculateMomentum (prepareTrendData parseIso now (c3Trend now)) = 10 := by
  rw [prepare_c3]
  unfold calculateMomentum
  norm_num

theorem engagement_c3 (parseIso : String → Option ℚ) (now : ℚ) :
    calculateEngagement (prepareTrendData parseIso now (c3Trend now)) = 0 := by
  rw [prepare_c3]
  unfold calculateEngagement
  norm_num

theorem geographic_c3 (parseIso : String → Option ℚ) (now : ℚ) :
    calculateGeographic (prepareTrendData parseIso now (c3Trend now))
      = 100 * Real.logb 10 2 := by
  rw [prepare_c3]
  unfold calculateGeographic
  norm_num
  have hinv : (Real.logb 2 10)⁻¹ = Real.logb 10 2 := by
    rw [show Real.logb 2 10 = Real.log 10 / Real.log 2 from rfl, inv_div]
    rfl
  rw [hinv, min_eq_left (by linarith [logb_ten_two_bounds.2] :
    Real.logb 10 2 * 100 ≤ 100)]
  ring

theorem platformDiversity_c3 (parseIso : String → Option ℚ) (now : ℚ) :
    calculatePlatformDiversity (prepareTrendData parseIso now (c3Trend now)) = 10 := by
  rw [prepare_c3]
  unfold calculatePlatformDiversity
  norm_num

theorem timeDecay_c3 (parseIso : String → Option ℚ) (now : ℚ) :
    calculateTimeDecay now (prepareTrendData parseIso now (c3Trend now)) = 1 := by
  rw [prepare_c3]
  unfold calculateTimeDecay
  norm_num

theorem competition_c3 (parseIso : String → Option ℚ) (now : ℚ) :
    calculateCompetition (prepareTrendData parseIso now (c3Trend now))
      = 1 + Real.logb 10 2 := by
  rw [prepare_c3]
  unfold calculateCompetition
  norm_num
  linarith [logb_ten_two_bounds.2]

theorem scoreTrend_fields (parseIso : String → Option ℚ) (now : ℚ) (t : TrendAgg) :
    scoreTrend parseIso now t =
      ⟨round2 (normalizeScore
          (if calculateTimeDecay now (prepareTrendData parseIso now t)
                * calculateCompetition (prepareTrendData parseIso now t) = 0 then 0
           else calculateVelocity (prepareTrendData parseIso now t)
              * calculateMomentum (prepareTrendData parseIso now t)
              * calculateEngagement (prepareTrendData parseIso now t)
              * calculateGeographic (prepareTrendData parseIso now t)
              * calculatePlatformDiversity (prepareTrendData parseIso now t)
              / (calculateTimeDecay now (prepareTrendData parseIso now t)
                * calculateCompetition (prepareTrendData parseIso now t))) 0 100),
       round2 (calculateVelocity (prepareTrendData parseIso now t)),
       round2 (calculateMomentum (prepareTrendData parseIso now t)),
       round2 (calculateEngagement (prepareTrendData parseIso now t)),
       round2 (calculateGeographic (prepareTrendData parseIso now t)),
       round2 (calculatePlatformDiversity (prepareTrendData parseIso now t)),
       round2 (calculateTimeDecay now (prepareTrendData parseIso now t)),
       round2 (calculateCompetition (prepareTrendData parseIso now t))⟩ := rfl

/-- C3 counterexample: with the prior-views baseline synthesized as
`int(1000 × 0.8) = 800 ≠ 0`, the velocity takes the `(current − previous)/6`
branch, so the stored Velocity component is 3.33 — not the claimed 0.1. -/
theorem utsFormula_c3_counterexample :
    (scoreTrend sampleParse 0 (c3Trend 0)).velocity_score ≠ 1/10 := by
  rw [scoreTrend_fields]
  show round2 (calculateVelocity (prepareTrendData sampleParse 0 (c3Trend 0))) ≠ 1/10
  rw [velocity_c3, round2_value 333 (by push_cast; norm_num) (by push_cast; norm_num)]
  norm_num

/-- C3 (amended): for the one-post reference trend (views 1000, no other
engagement, one platform, posted at `now`), the stored component scores are
Velocity = 3.33 (the baseline `views_6h_ago = 800` is nonzero, so velocity
is `(1000−800)/6/10 = 10/3`, not 0.1), Momentum = 10, Engagement = 0,
Geographic = 30.1, Platform diversity = 10, Time decay = 1.0,
Competition = 1.3 (`1 + log10 2` rounded), and `uts_score = 0` since the
zero engagement zeroes the numerator. -/
theorem utsFormula_c3_values (parseIso : String → Option ℚ) (now : ℚ) :
    (scoreTrend parseIso now (c3Trend now)).uts_score = 0
    ∧ (scoreTrend parseIso now (c3Trend now)).velocity_score = 333/100
    ∧ (scoreTrend parseIso now (c3Trend now)).momentum_score = 10
    ∧ (scoreTrend parseIso now (c3Trend now)).engagement_score = 0
    ∧ (scoreTrend parseIso now (c3Trend now)).geographic_score = 301/10
    ∧ (scoreTrend parseIso now (c3Trend now)).platform_diversity_score = 10
    ∧ (scoreTrend parseIso now (c3Trend now)).time_decay_score = 1
    ∧ (scoreTrend parseIso now (c3Trend now)).competition_score = 13/10 := by
  have hlb := logb_ten_two_bounds
  have hr0 : round2 (0 : ℝ) = 0 := by
    have h := round2_intCast 0
    push_cast at h
    exact h
  have hr1 : round2 (1 : ℝ) = 1 := by
    have h := round2_intCast 1
    push_cast at h
    exact h
  have hr10 : round2 (10 : ℝ) = 10 := by
    have h := round2_intCast 10
    push_cast at h
    exact h
  rw [scoreTrend_fields]
  refine ⟨?_, ?_, ?_, ?_, ?_, ?_, ?_, ?_⟩
  · show round2 (normalizeScore _ 0 100) = 0
    rw [timeDecay_c3, competition_c3, engagement_c3,
      if_neg (ne_of_gt (by nlinarith [hlb.1] : (0:ℝ) < 1 * (1 + Real.logb 10 2)))]
    rw [show calculateVelocity (prepareTrendData parseIso now (c3Trend now))
          * calculateMomentum (prepareTrendData parseIso now (c3Trend now))
          * 0
          * calculateGeographic (prepareTrendData parseIso now (c3Trend now))
          * calculatePlatformDiversity (prepareTrendData parseIso now (c3Trend now))
          / (1 * (1 + Real.logb 10 2)) = 0 by
        rw [mul_zero, zero_mul, zero_mul, zero_div]]
    rw [show normalizeScore 0 0 100 = 0 by unfold normalizeScore; rw [if_pos le_rfl]]
    exact hr0
  · show round2 (calculateVelocity (prepareTrendData parseIso now (c3Trend now))) = 333/100
    rw [velocity_c3, round2_value 333 (by push_cast; norm_num) (by push_cast; norm_num)]
    norm_num
  · show round2 (calculateMomentum (prepareTrendData parseIso now (c3Trend now))) = 10
    rw [momentum_c3]
    exact hr10
  · show round2 (calculateEngagement (prepareTrendData parseIso now (c3Trend now))) = 0
    rw [engagement_c3]
    exact hr0
  · show round2 (calculateGeographic (prepareTrendData parseIso now (c3Trend now))) = 301/10
    rw [geographic_c3, round2_value 3010 (by push_cast; nlinarith [hlb.1])
      (by push_cast; nlinarith [hlb.2])]
    norm_num
  · show round2 (calculatePlatformDiversity (prepareTrendData parseIso now (c3Trend now))) = 10
    rw [platformDiversity_c3]
    exact hr10
  · show round2 (calculateTimeDecay now (prepareTrendData parseIso now (c3Trend now))) = 1
    rw [timeDecay_c3]
    exact hr1
  · show round2 (calculateCompetition (prepareTrendData parseIso now (c3Trend now))) = 13/10
    rw [competition_c3, round2_value 130 (by push_cast; nlinarith [hlb.1])
      (by push_cast; nlinarith [hlb.2])]
    norm_num

end TrendScout
